import Mathlib

/-!
Verification of the video-compilation pipeline of the repository
(`motivational_video_editor.py` and the `/generate-sf-videos` endpoint of
`main.py`) against its natural-language specification.

The Python code is shallowly embedded: pure helpers become Lean functions on
`Nat`/`Rat` (Python floats modelled as exact rationals), the per-frame numpy
transform is modelled per pixel with the uint8 casts made explicit, and the
stateful compilation pipeline is modelled as a function over an oracle of
injected stage outcomes together with an explicit list of temporary files on
disk.
-/

/-- The aspect-ratio categories produced by `analyze_video_format`
(`motivational_video_editor.py`, lines 22-36). -/
inductive FormatType
  | vertical_social
  | horizontal_standard
  | square
  | ultra_wide
  | custom
  deriving DecidableEq, Repr

/-- The analysis record returned by `analyze_video_format`
(`motivational_video_editor.py`, lines 38-45). -/
structure FormatInfo where
  width : ℕ
  height : ℕ
  aspect_ratio : ℚ
  format_type : FormatType
  description : String
  is_social_ready : Bool
  deriving DecidableEq, Repr

/-- Embedding of `analyze_video_format` (`motivational_video_editor.py`,
lines 8-45).  `clip.size` is the pair `(width, height)`; the float division
`width / height` is modelled as exact rational division. -/
def analyze_video_format (width height : ℕ) : FormatInfo :=
  let aspect_ratio : ℚ := (width : ℚ) / (height : ℚ)
  if 0.5 ≤ aspect_ratio ∧ aspect_ratio ≤ 0.6 then
    ⟨width, height, aspect_ratio, FormatType.vertical_social,
      "Vertical (Social Media Ready)", true⟩
  else if 1.7 ≤ aspect_ratio ∧ aspect_ratio ≤ 1.8 then
    ⟨width, height, aspect_ratio, FormatType.horizontal_standard,
      "Horizontal (Standard)", false⟩
  else if 0.9 ≤ aspect_ratio ∧ aspect_ratio ≤ 1.1 then
    ⟨width, height, aspect_ratio, FormatType.square, "Square", false⟩
  else if 1.8 < aspect_ratio then
    ⟨width, height, aspect_ratio, FormatType.ultra_wide, "Ultra-wide", false⟩
  else
    ⟨width, height, aspect_ratio, FormatType.custom, "Custom aspect ratio", false⟩

/-- The target-format record returned by `standardize_video_format`
(`motivational_video_editor.py`, lines 47-115). -/
structure TargetFormat where
  width : ℕ
  height : ℕ
  format_type : FormatType
  resize_needed : Bool
  deriving DecidableEq, Repr

/-- Embedding of `standardize_video_format` (`motivational_video_editor.py`,
lines 47-115).  Any mode string other than `keep_original`, `vertical` and
`horizontal` falls into the `auto` branch, exactly as the Python `else` does.
`keep_original` on an empty list raises `IndexError` in Python, modelled as
`none`.  The Python comparison `count >= len(clips_info) / 2` uses float
division and is modelled with exact rational division; the dictionary
`format_counts` built on lines 85-88 is modelled by `List.countP`. -/
def standardize_video_format (clips_info : List FormatInfo)
    (target_format : String) : Option TargetFormat :=
  if target_format = "keep_original" then
    match clips_info with
    | [] => none
    | info :: _ => some ⟨info.width, info.height, info.format_type, false⟩
  else if target_format = "vertical" then
    some ⟨1080, 1920, FormatType.vertical_social, true⟩
  else if target_format = "horizontal" then
    some ⟨1920, 1080, FormatType.horizontal_standard, true⟩
  else
    let vcount := clips_info.countP (fun info => info.format_type == FormatType.vertical_social)
    let hcount := clips_info.countP (fun info => info.format_type == FormatType.horizontal_standard)
    if (vcount : ℚ) ≥ (clips_info.length : ℚ) / 2 then
      some ⟨1080, 1920, FormatType.vertical_social, false⟩
    else if (hcount : ℚ) ≥ (clips_info.length : ℚ) / 2 then
      some ⟨1920, 1080, FormatType.horizontal_standard, false⟩
    else
      some ⟨1080, 1920, FormatType.vertical_social, true⟩

/-- One RGB pixel of a frame.  Frames handed to `color_effect` are numpy
`uint8` arrays, so each channel is a natural number intended to lie in
`0..255`. -/
structure Px where
  r : ℕ
  g : ℕ
  b : ℕ
  deriving DecidableEq, Repr

/-- Numpy assignment of a nonnegative float into a `uint8` array
(`moody_frame[:, :, c] = gray * k` on lines 157-159 of
`motivational_video_editor.py`, where `moody_frame = np.zeros_like(frame)`
has dtype `uint8`): the value is truncated to an integer and wrapped
modulo 256. -/
def npCastUint8 (x : ℚ) : ℕ :=
  (⌊x⌋).toNat % 256

/-- Numpy `np.clip(x, 0, 255).astype(np.uint8)` (line 171 of
`motivational_video_editor.py`): clamp to `[0, 255]`, then truncate to an
integer. -/
def npClipCast (x : ℚ) : ℕ :=
  (⌊max 0 (min 255 x)⌋).toNat

/-- Embedding of the inner `color_effect` closure of `apply_dark_moody_effect`
(`motivational_video_editor.py`, lines 150-173), applied to one pixel.
`gray` is the float luma from `np.dot`; the three tinted channels are stored
into the `uint8` array `moody_frame` (hence `npCastUint8`); the darkening,
contrast and blend steps then run in float arithmetic on the stored values,
and the result is clipped to `0..255` and cast back to `uint8`. -/
def color_effect (p : Px) (intensity : ℚ) : Px :=
  let gray : ℚ := 0.299 * (p.r : ℚ) + 0.587 * (p.g : ℚ) + 0.114 * (p.b : ℚ)
  let moodyR : ℕ := npCastUint8 (gray * 0.9)
  let moodyG : ℕ := npCastUint8 (gray * 0.95)
  let moodyB : ℕ := npCastUint8 (gray * 1.1)
  let darkR : ℚ := (moodyR : ℚ) * (0.5 + 0.3 * (1 - intensity))
  let darkG : ℚ := (moodyG : ℚ) * (0.5 + 0.3 * (1 - intensity))
  let darkB : ℚ := (moodyB : ℚ) * (0.5 + 0.3 * (1 - intensity))
  let contrastR : ℚ := ((darkR / 255 - 0.5) * (1 + intensity * 0.5) + 0.5) * 255
  let contrastG : ℚ := ((darkG / 255 - 0.5) * (1 + intensity * 0.5) + 0.5) * 255
  let contrastB : ℚ := ((darkB / 255 - 0.5) * (1 + intensity * 0.5) + 0.5) * 255
  let finalR : ℚ := (p.r : ℚ) * (1 - intensity) + contrastR * intensity
  let finalG : ℚ := (p.g : ℚ) * (1 - intensity) + contrastG * intensity
  let finalB : ℚ := (p.b : ℚ) * (1 - intensity) + contrastB * intensity
  ⟨npClipCast finalR, npClipCast finalG, npClipCast finalB⟩

/-- The per-pixel transform exactly as the specification describes it
(spec §4.4, claim about `color_effect`): intensity clamped to `[0, 1]`
before use, luma `0.299R + 0.587G + 0.114B`, tinted grayscale channels
`luma × 0.9 / 0.95 / 1.1` kept as real numbers (no intermediate integer
store), darkening by `0.5 + 0.3(1 − intensity)`, contrast stretch around the
midpoint by `1 + intensity × 0.5`, blending with the original by `intensity`,
and a final clamp of every channel to the integer range `0..255`. -/
def color_effect_as_specified (p : Px) (intensityRaw : ℚ) : Px :=
  let intensity : ℚ := max 0 (min 1 intensityRaw)
  let luma : ℚ := 0.299 * (p.r : ℚ) + 0.587 * (p.g : ℚ) + 0.114 * (p.b : ℚ)
  let darken (t : ℚ) : ℚ := t * (0.5 + 0.3 * (1 - intensity))
  let contrast (m : ℚ) : ℚ := ((m / 255 - 0.5) * (1 + intensity * 0.5) + 0.5) * 255
  let blend (c : ℕ) (m : ℚ) : ℚ := (c : ℚ) * (1 - intensity) + m * intensity
  ⟨npClipCast (blend p.r (contrast (darken (luma * 0.9)))),
   npClipCast (blend p.g (contrast (darken (luma * 0.95)))),
   npClipCast (blend p.b (contrast (darken (luma * 1.1))))⟩

/-- The per-pixel transform as the code actually computes it, phrased as a
per-channel pipeline: the tinted grayscale channels are truncated into
`uint8` (floor, wrapping modulo 256) before the darkening step, and the
caller-supplied intensity is used as-is, without clamping. -/
def color_effect_truncating (p : Px) (intensity : ℚ) : Px :=
  let luma : ℚ := 0.299 * (p.r : ℚ) + 0.587 * (p.g : ℚ) + 0.114 * (p.b : ℚ)
  let darken (t : ℕ) : ℚ := (t : ℚ) * (0.5 + 0.3 * (1 - intensity))
  let contrast (m : ℚ) : ℚ := ((m / 255 - 0.5) * (1 + intensity * 0.5) + 0.5) * 255
  let blend (c : ℕ) (m : ℚ) : ℚ := (c : ℚ) * (1 - intensity) + m * intensity
  ⟨npClipCast (blend p.r (contrast (darken (npCastUint8 (luma * 0.9))))),
   npClipCast (blend p.g (contrast (darken (npCastUint8 (luma * 0.95))))),
   npClipCast (blend p.b (contrast (darken (npCastUint8 (luma * 1.1)))))⟩

/-- The moody transform alone (tint, darken, contrast, clip), with no blend
step: what `color_effect` produces per channel before mixing with the
original frame. -/
def moody_transform (p : Px) (intensity : ℚ) : Px :=
  let luma : ℚ := 0.299 * (p.r : ℚ) + 0.587 * (p.g : ℚ) + 0.114 * (p.b : ℚ)
  let darken (t : ℕ) : ℚ := (t : ℚ) * (0.5 + 0.3 * (1 - intensity))
  let contrast (m : ℚ) : ℚ := ((m / 255 - 0.5) * (1 + intensity * 0.5) + 0.5) * 255
  ⟨npClipCast (contrast (darken (npCastUint8 (luma * 0.9)))),
   npClipCast (contrast (darken (npCastUint8 (luma * 0.95)))),
   npClipCast (contrast (darken (npCastUint8 (luma * 1.1))))⟩

/-- The clip values manipulated by the compilation pipeline.  A `source` clip
is a decoded `VideoFileClip`; `resized` is the result of `clip.resized((w, h))`
(moviepy keeps the duration and changes the dimensions); `transformed` is the
result of `clip.image_transform(color_effect)` for a given effect intensity
(moviepy keeps both dimensions and duration). -/
inductive Clip
  | source (id : ℕ) (width height : ℕ) (duration : ℚ)
  | resized (c : Clip) (width height : ℕ)
  | transformed (c : Clip) (intensity : ℚ)
  deriving DecidableEq, Repr

/-- Width of a clip under the moviepy semantics. -/
def Clip.width : Clip → ℕ
  | .source _ w _ _ => w
  | .resized _ w _ => w
  | .transformed c _ => c.width

/-- Height of a clip under the moviepy semantics. -/
def Clip.height : Clip → ℕ
  | .source _ _ h _ => h
  | .resized _ _ h => h
  | .transformed c _ => c.height

/-- Duration of a clip under the moviepy semantics: neither `resized` nor
`image_transform` changes it. -/
def Clip.duration : Clip → ℚ
  | .source _ _ _ d => d
  | .resized c _ _ => c.duration
  | .transformed c _ => c.duration

/-- Embedding of `resize_clip_if_needed` (`motivational_video_editor.py`,
lines 117-136): resize exactly when the current dimensions differ from the
target, otherwise return the clip itself. -/
def resize_clip_if_needed (clip : Clip) (target_format : TargetFormat) : Clip :=
  if clip.width ≠ target_format.width ∨ clip.height ≠ target_format.height then
    Clip.resized clip target_format.width target_format.height
  else
    clip

/-- Embedding of `apply_dark_moody_effect` (`motivational_video_editor.py`,
lines 138-175) at the clip level: `clip.image_transform(color_effect)`. -/
def apply_dark_moody_effect (clip : Clip) (intensity : ℚ) : Clip :=
  Clip.transformed clip intensity

/-- Per-clip processing step of `create_seamless_video_compilation`
(`motivational_video_editor.py`, lines 448-461): resize if needed, then apply
the moody effect when requested. -/
def process_clip (target_format : TargetFormat) (apply_moody_effect : Bool)
    (moody_intensity : ℚ) (clip : Clip) : Clip :=
  let processed_clip := resize_clip_if_needed clip target_format
  if apply_moody_effect then
    apply_dark_moody_effect processed_clip moody_intensity
  else
    processed_clip

/-- The compiled (pre-audio-mix) video: the result of
`concatenate_videoclips(processed_clips, method="compose")`
(`motivational_video_editor.py`, line 465), which keeps the clips in input
order. -/
structure CompiledVideo where
  parts : List Clip
  deriving DecidableEq, Repr

/-- Duration of the concatenation under the moviepy semantics: with no gaps,
crossfades or transitions, the total duration is the sum of the part
durations. -/
def CompiledVideo.duration (v : CompiledVideo) : ℚ :=
  (v.parts.map Clip.duration).sum

/-- Start offset of each part in the concatenation: the running sum of the
preceding durations (each clip starts exactly where the previous one ends). -/
def CompiledVideo.starts (v : CompiledVideo) : List ℚ :=
  List.scanl (fun acc d => acc + d) 0 (v.parts.map Clip.duration)

/-- The resize-and-effect stage followed by concatenation
(`motivational_video_editor.py`, lines 448-465). -/
def compile_clips (clips : List Clip) (target_format : TargetFormat)
    (apply_moody_effect : Bool) (moody_intensity : ℚ) : CompiledVideo :=
  ⟨clips.map (process_clip target_format apply_moody_effect moody_intensity)⟩

/-- The names imported from moviepy by `motivational_video_editor.py`,
line 4: `from moviepy import VideoFileClip, AudioFileClip,`
`concatenate_videoclips, CompositeAudioClip`. -/
def moviepy_imports : List String :=
  ["VideoFileClip", "AudioFileClip", "concatenate_videoclips", "CompositeAudioClip"]

/-- Embedding of the background-music branch of
`create_seamless_video_compilation` (`motivational_video_editor.py`,
lines 468-478), tracking the duration of the background audio track.
If the background track is shorter than the video, the code calls
`concatenate_audioclips([background_audio] * loops_needed)` with
`loops_needed = int(final_video.duration / background_audio.duration) + 1`;
that name is resolved at run time against the module imports, and raising
`NameError` is modelled as an `Except.error`.  The subsequent
`background_audio.subclipped(0, final_video.duration)` trims the track to
the video duration. -/
def add_background_music (audio_duration video_duration : ℚ) : Except String ℚ :=
  let looped : Except String ℚ :=
    if audio_duration < video_duration then
      if "concatenate_audioclips" ∈ moviepy_imports then
        let loops_needed : ℤ := ⌊video_duration / audio_duration⌋ + 1
        Except.ok ((loops_needed : ℚ) * audio_duration)
      else
        Except.error "NameError: name concatenate_audioclips is not defined"
    else
      Except.ok audio_duration
  match looped with
  | Except.error e => Except.error e
  | Except.ok d => Except.ok (min d video_duration)

/-- Outcome of one call to `download_media_from_url`
(`motivational_video_editor.py`, lines 177-296).  `success` returns a
temporary file; `failClean` raises before the temporary file is created
(e.g. a failed HTTP request on line 200); `failDirty` raises after the
temporary file has been written (e.g. the undersized-file check on line 262
or the access test on line 290), leaving the partial file on disk — the
function never deletes its own temporary file on failure. -/
inductive DlOutcome
  | success
  | failClean
  | failDirty
  deriving DecidableEq, Repr

/-- Temporary files created by one `create_seamless_video_compilation`
request: the downloaded video for input `i`, the downloaded background
audio, and the output file created on line 322 when no `output_path` is
supplied. -/
inductive FileId
  | videoTemp (i : ℕ)
  | audioTemp
  | outputTemp
  deriving DecidableEq, Repr

/-- Injected outcomes for the fetch, load and export stages of one request. -/
structure Oracle where
  videoDl : ℕ → DlOutcome
  audioDl : DlOutcome
  loadOk : ℕ → Bool
  exportOk : Bool

/-- State after the video-download loop (`motivational_video_editor.py`,
lines 328-333): the temporary files created on disk, the paths recorded in
the `downloaded_videos` list, and whether the whole loop succeeded.  The
loop appends to `downloaded_videos` only after a successful download and
stops at the first exception. -/
structure DlState where
  created : List FileId
  downloaded : List FileId
  ok : Bool
  deriving DecidableEq, Repr

/-- The video-download loop over the given input indices, in order. -/
def download_videos (o : Oracle) : List ℕ → DlState
  | [] => ⟨[], [], true⟩
  | i :: rest =>
    match o.videoDl i with
    | DlOutcome.success =>
      let s := download_videos o rest
      ⟨FileId.videoTemp i :: s.created, FileId.videoTemp i :: s.downloaded, s.ok⟩
    | DlOutcome.failClean => ⟨[], [], false⟩
    | DlOutcome.failDirty => ⟨[FileId.videoTemp i], [], false⟩

/-- The optional background-audio download (`motivational_video_editor.py`,
lines 336-338): `downloaded_audio` is set only on success. -/
def download_audio (o : Oracle) (hasAudio : Bool) : DlState :=
  if hasAudio then
    match o.audioDl with
    | DlOutcome.success => ⟨[FileId.audioTemp], [FileId.audioTemp], true⟩
    | DlOutcome.failClean => ⟨[], [], false⟩
    | DlOutcome.failDirty => ⟨[FileId.audioTemp], [], false⟩
  else ⟨[], [], true⟩

/-- Whether every clip load (`motivational_video_editor.py`, lines 340-442)
succeeds; loading creates no files. -/
def load_all (o : Oracle) (n : ℕ) : Bool :=
  (List.range n).all o.loadOk

/-- Embedding of `create_seamless_video_compilation`
(`motivational_video_editor.py`, lines 298-518) restricted to what it does
to the file system.  `n` video URLs are fetched in order; the background
audio, clip loading and export stages run only if every earlier stage
succeeded.  When `output_path` is not provided, line 322 creates a temporary
output file up front.  The `finally` block (lines 510-518) deletes exactly
the paths recorded in `downloaded_videos` and `downloaded_audio`.  The
result is the raised exception (if any) paired with the temporary files
still on disk after the call returns. -/
def run_compilation (n : ℕ) (hasAudio outputProvided : Bool) (o : Oracle) :
    Except String Unit × List FileId :=
  let initialDisk : List FileId := if outputProvided then [] else [FileId.outputTemp]
  let vs := download_videos o (List.range n)
  let au := if vs.ok then download_audio o hasAudio else ⟨[], [], true⟩
  let result : Except String Unit :=
    if !vs.ok then Except.error "DownloadError: video fetch failed"
    else if !au.ok then Except.error "DownloadError: audio fetch failed"
    else if !load_all o n then Except.error "ClipLoadError"
    else if !o.exportOk then Except.error "ExportError"
    else Except.ok ()
  let disk := initialDisk ++ vs.created ++ au.created
  let cleaned := disk.filter (fun f => decide (f ∉ vs.downloaded ∧ f ∉ au.downloaded))
  (result, cleaned)

/-- The request body of `/generate-sf-videos` (`main.py`, lines 26-33), with
the float parameters modelled as exact rationals. -/
structure VideoRequest where
  video_urls : List String
  audio_url : Option String
  format_mode : String
  apply_moody_effect : Bool
  moody_intensity : ℚ
  video_audio_volume : ℚ
  background_music_volume : ℚ
  deriving DecidableEq, Repr

/-- The distinct validation rejections raised by `generate_seamless_videos`
(`main.py`, lines 373-412), in source order.  `malformedUrl k` carries the
1-based index reported in the detail message `"Video URL {i+1} appears to`
`contain multiple URLs separated by commas..."`. -/
inductive ValidationError
  | noVideos
  | tooManyVideos
  | malformedUrl (index : ℕ)
  | badFormatMode
  | badVideoVolume
  | badBackgroundVolume
  | badIntensity
  deriving DecidableEq, Repr

/-- Number of non-overlapping occurrences of the substring `"http"`,
scanning left to right: Python `url.count('http')` (`main.py`, line 385). -/
def count_http : List Char → ℕ
  | 'h' :: 't' :: 't' :: 'p' :: rest => count_http rest + 1
  | _ :: rest => count_http rest
  | [] => 0

/-- Python `',' in url and url.count('http') > 1` (`main.py`, line 385). -/
def is_malformed_url (url : String) : Bool :=
  url.toList.contains ',' && count_http url.toList > 1

/-- Index of the first URL hitting the malformed-URL check, mirroring the
`for i, url in enumerate(request.video_urls)` loop of `main.py`,
lines 384-389, which raises at the first offending element. -/
def first_malformed_index : List String → Option ℕ
  | [] => none
  | url :: rest =>
    if is_malformed_url url then some 0
    else (first_malformed_index rest).map (· + 1)

/-- The validation sequence of `generate_seamless_videos` (`main.py`,
lines 373-412), in source order: source count lower bound, upper bound,
malformed-URL scan, format mode, then the three range checks
`0.0 <= x <= 1.0` on the two volumes and the effect intensity. -/
def validate_video_request (r : VideoRequest) : Option ValidationError :=
  if r.video_urls.length < 1 then some ValidationError.noVideos
  else if r.video_urls.length > 10 then some ValidationError.tooManyVideos
  else
    match first_malformed_index r.video_urls with
    | some i => some (ValidationError.malformedUrl (i + 1))
    | none =>
      if ¬(r.format_mode = "vertical" ∨ r.format_mode = "horizontal" ∨ r.format_mode = "auto") then
        some ValidationError.badFormatMode
      else if ¬(0 ≤ r.video_audio_volume ∧ r.video_audio_volume ≤ 1) then
        some ValidationError.badVideoVolume
      else if ¬(0 ≤ r.background_music_volume ∧ r.background_music_volume ≤ 1) then
        some ValidationError.badBackgroundVolume
      else if ¬(0 ≤ r.moody_intensity ∧ r.moody_intensity ≤ 1) then
        some ValidationError.badIntensity
      else none

/-- Result of the `/generate-sf-videos` handler before any media work:
either an HTTP rejection (status code and which validation failed), or the
pipeline is entered with the validated request — downloads happen only
inside `create_seamless_video_compilation`, which is called after every
validation check (`main.py`, line 425). -/
inductive HandlerResult
  | rejected (status : ℕ) (error : ValidationError)
  | ran (request : VideoRequest)
  deriving DecidableEq, Repr

/-- Embedding of the validation phase of `generate_seamless_videos`
(`main.py`, lines 342-434): every validation failure raises
`HTTPException(status_code=400, ...)` before the output temp file is created
and before `create_seamless_video_compilation` is invoked. -/
def generate_seamless_videos (r : VideoRequest) : HandlerResult :=
  match validate_video_request r with
  | some e => HandlerResult.rejected 400 e
  | none => HandlerResult.ran r

/-- C6: for every positive width and height, `analyze_video_format`
classifies the aspect ratio `width/height` into exactly the bands
vertical-social `[0.50, 0.60]`, horizontal-standard `[1.70, 1.80]`, square
`[0.90, 1.10]`, ultra-wide `(> 1.80)` and otherwise custom; in particular
1080×1920 is vertical-social, 1920×1080 is horizontal-standard, 1000×1000 is
square and 2000×800 is ultra-wide. -/
theorem analyze_video_format_bands (w h : ℕ) (hw : 0 < w) (hh : 0 < h) :
    (((analyze_video_format w h).format_type = FormatType.vertical_social ↔
        (0.5 : ℚ) ≤ (w : ℚ) / (h : ℚ) ∧ (w : ℚ) / (h : ℚ) ≤ 0.6) ∧
      ((analyze_video_format w h).format_type = FormatType.horizontal_standard ↔
        (1.7 : ℚ) ≤ (w : ℚ) / (h : ℚ) ∧ (w : ℚ) / (h : ℚ) ≤ 1.8) ∧
      ((analyze_video_format w h).format_type = FormatType.square ↔
        (0.9 : ℚ) ≤ (w : ℚ) / (h : ℚ) ∧ (w : ℚ) / (h : ℚ) ≤ 1.1) ∧
      ((analyze_video_format w h).format_type = FormatType.ultra_wide ↔
        (1.8 : ℚ) < (w : ℚ) / (h : ℚ)) ∧
      ((analyze_video_format w h).format_type = FormatType.custom ↔
        ¬((0.5 : ℚ) ≤ (w : ℚ) / (h : ℚ) ∧ (w : ℚ) / (h : ℚ) ≤ 0.6) ∧
        ¬((1.7 : ℚ) ≤ (w : ℚ) / (h : ℚ) ∧ (w : ℚ) / (h : ℚ) ≤ 1.8) ∧
        ¬((0.9 : ℚ) ≤ (w : ℚ) / (h : ℚ) ∧ (w : ℚ) / (h : ℚ) ≤ 1.1) ∧
        ¬((1.8 : ℚ) < (w : ℚ) / (h : ℚ)))) ∧
    (analyze_video_format 1080 1920).format_type = FormatType.vertical_social ∧
    (analyze_video_format 1920 1080).format_type = FormatType.horizontal_standard ∧
    (analyze_video_format 1000 1000).format_type = FormatType.square ∧
    (analyze_video_format 2000 800).format_type = FormatType.ultra_wide := by
  refine ⟨?_, ?_, ?_, ?_, ?_⟩
  · simp only [analyze_video_format]
    split_ifs with h1 h2 h3 h4 <;> simp_all
    · exact ⟨fun hx => by linarith [h1.2], fun hx => by linarith [h1.2], by linarith [h1.2]⟩
    · intro hx
      linarith [h2.1]
    · linarith [h3.2]
  · norm_num [analyze_video_format]
  · norm_num [analyze_video_format]
  · norm_num [analyze_video_format]
  · norm_num [analyze_video_format]

/-- Auxiliary: the Python float comparison `count >= len / 2` is the integer
comparison `len ≤ 2 * count`. -/
theorem half_le_cast_iff (c n : ℕ) : ((n : ℚ) / 2 ≤ (c : ℚ)) ↔ n ≤ 2 * c := by
  rw [div_le_iff (by norm_num : (0 : ℚ) < 2)]
  constructor
  · intro hx
    exact_mod_cast (by linarith : (n : ℚ) ≤ 2 * (c : ℚ))
  · intro hx
    have hx' : (n : ℚ) ≤ 2 * (c : ℚ) := by exact_mod_cast hx
    linarith

/-- C1 counterexample: on an exact one-to-one tie between a vertical-social
clip and a horizontal-standard clip, mode `auto` takes the vertical-majority
branch (the `>=` on line 91 is satisfied by a tie), returning
`resize_needed = False`, not the mixed-default branch with resize forced
that the claim describes. -/
theorem standardize_auto_tie_not_mixed_default :
    standardize_video_format
        [analyze_video_format 1080 1920, analyze_video_format 1920 1080] "auto" =
      some ⟨1080, 1920, FormatType.vertical_social, false⟩ ∧
    ¬ (standardize_video_format
        [analyze_video_format 1080 1920, analyze_video_format 1920 1080] "auto" =
      some ⟨1080, 1920, FormatType.vertical_social, true⟩) := by
  have hres :
      standardize_video_format
          [analyze_video_format 1080 1920, analyze_video_format 1920 1080] "auto" =
        some ⟨1080, 1920, FormatType.vertical_social, false⟩ := by
    norm_num [standardize_video_format, analyze_video_format]
    decide
  exact ⟨hres, by rw [hres]; simp⟩

/-- C1 (amended): in mode `auto` on a non-empty clip list, if at least half
the clips are vertical-social the target is the fixed 1080×1920
vertical-social with `resize_needed = False` regardless of the clips' actual
sizes; otherwise if at least half are horizontal-standard the target is the
fixed 1920×1080 horizontal-standard with `resize_needed = False`; otherwise
the mixed default 1080×1920 vertical-social with `resize_needed = True`.
An exact vertical/horizontal tie satisfies the first test and lands in the
vertical branch. -/
theorem standardize_auto_majority_rule (clips_info : List FormatInfo)
    (hne : clips_info ≠ []) :
    (clips_info.length ≤
        2 * clips_info.countP (fun info => info.format_type == FormatType.vertical_social) →
      standardize_video_format clips_info "auto" =
        some ⟨1080, 1920, FormatType.vertical_social, false⟩) ∧
    (¬ clips_info.length ≤
        2 * clips_info.countP (fun info => info.format_type == FormatType.vertical_social) →
      clips_info.length ≤
        2 * clips_info.countP (fun info => info.format_type == FormatType.horizontal_standard) →
      standardize_video_format clips_info "auto" =
        some ⟨1920, 1080, FormatType.horizontal_standard, false⟩) ∧
    (¬ clips_info.length ≤
        2 * clips_info.countP (fun info => info.format_type == FormatType.vertical_social) →
      ¬ clips_info.length ≤
        2 * clips_info.countP (fun info => info.format_type == FormatType.horizontal_standard) →
      standardize_video_format clips_info "auto" =
        some ⟨1080, 1920, FormatType.vertical_social, true⟩) := by
  refine ⟨?_, ?_, ?_⟩
  · intro hv
    simp only [standardize_video_format]
    rw [if_neg (by decide), if_neg (by decide), if_neg (by decide),
      if_pos ((half_le_cast_iff _ _).mpr hv)]
  · intro hv hh
    simp only [standardize_video_format]
    rw [if_neg (by decide), if_neg (by decide), if_neg (by decide),
      if_neg (fun hx => hv ((half_le_cast_iff _ _).mp hx)),
      if_pos ((half_le_cast_iff _ _).mpr hh)]
  · intro hv hh
    simp only [standardize_video_format]
    rw [if_neg (by decide), if_neg (by decide), if_neg (by decide),
      if_neg (fun hx => hv ((half_le_cast_iff _ _).mp hx)),
      if_neg (fun hx => hh ((half_le_cast_iff _ _).mp hx))]

/-- A vertical-social `FormatInfo` at the native size 1080×1920, used to
instantiate theorems at a concrete input. -/
def sampleVerticalInfo : FormatInfo :=
  ⟨1080, 1920, 9 / 16, FormatType.vertical_social, "Vertical (Social Media Ready)", true⟩

/-- Witness for `standardize_auto_majority_rule`: one vertical-social clip
is a (trivial) vertical majority, and `auto` returns the fixed 1080×1920
vertical target without resize. -/
theorem standardize_auto_majority_rule_witness :
    standardize_video_format [sampleVerticalInfo] "auto" =
      some ⟨1080, 1920, FormatType.vertical_social, false⟩ :=
  (standardize_auto_majority_rule [sampleVerticalInfo] (by decide)).1 (by decide)

set_option maxHeartbeats 1000000 in
/-- C2 counterexample: the effect processor does not compute what the claim
describes.  At the all-white pixel with in-range intensity `1/2` the code
yields blue channel 121 (the tinted blue `255 × 1.1 = 280.5` is stored into
the `uint8` array and wraps to 24) while the claimed computation yields 225;
and the caller-supplied intensity is not clamped: intensity 2 produces a
different output than intensity 1. -/
theorem color_effect_not_as_specified :
    color_effect ⟨255, 255, 255⟩ (1/2) ≠ color_effect_as_specified ⟨255, 255, 255⟩ (1/2) ∧
    color_effect ⟨255, 255, 255⟩ 2 ≠ color_effect ⟨255, 255, 255⟩ 1 := by
  constructor
  · norm_num [color_effect, color_effect_as_specified, npCastUint8, npClipCast]
    simp
    norm_num
    decide
  · norm_num [color_effect, npCastUint8, npClipCast]
    simp
    norm_num
    decide

/-- C2 (amended): for every frame pixel and caller-supplied intensity, the
effect processor computes luma `0.299R + 0.587G + 0.114B`, stores the tinted
grayscale channels `luma × 0.9 / 0.95 / 1.1` into a `uint8` buffer
(truncating and wrapping modulo 256), darkens by `0.5 + 0.3(1 − intensity)`,
contrast-stretches around the midpoint by `1 + intensity × 0.5`, blends with
the original using `intensity` as mix weight, and clamps every channel to
the integer range `0..255` — with the intensity used exactly as supplied,
not clamped (range enforcement happens in the HTTP validation layer). -/
theorem color_effect_spec_truncating (p : Px) (intensity : ℚ) :
    color_effect p intensity = color_effect_truncating p intensity := rfl

/-- Auxiliary: clipping and casting back a `uint8` channel value is the
identity. -/
theorem npClipCast_natCast (c : ℕ) (hc : c ≤ 255) : npClipCast (c : ℚ) = c := by
  have h255 : (c : ℚ) ≤ 255 := by exact_mod_cast hc
  have h0 : (0 : ℚ) ≤ (c : ℚ) := by positivity
  rw [npClipCast, min_eq_right h255, max_eq_right h0, Int.floor_natCast, Int.toNat_ofNat]

/-- C8: the effect processor is a pure function of pixel and intensity
(applying it twice gives identical outputs); at intensity 0 the blend
returns every in-range channel unchanged; at intensity 1 the output is the
moody transform alone, with no contribution from the original frame beyond
its luma. -/
theorem color_effect_pure_and_endpoints (p : Px) (intensity : ℚ) :
    color_effect p intensity = color_effect p intensity ∧
    (p.r ≤ 255 → p.g ≤ 255 → p.b ≤ 255 → color_effect p 0 = p) ∧
    color_effect p 1 = moody_transform p 1 := by
  refine ⟨rfl, ?_, ?_⟩
  · intro h1 h2 h3
    have e : ∀ (c : ℕ) (m : ℚ), (c : ℚ) * (1 - 0) + m * 0 = (c : ℚ) := by
      intro c m
      ring
    simp only [color_effect, e]
    rw [npClipCast_natCast p.r h1, npClipCast_natCast p.g h2, npClipCast_natCast p.b h3]
  · have e : ∀ (c : ℕ) (m : ℚ), (c : ℚ) * (1 - 1) + m * 1 = m := by
      intro c m
      ring
    simp only [color_effect, moody_transform, e]

/-- Witness for `color_effect_pure_and_endpoints`: at intensity 0 the pixel
(10, 20, 30) comes back unchanged. -/
theorem color_effect_pure_and_endpoints_witness :
    color_effect ⟨10, 20, 30⟩ 0 = ⟨10, 20, 30⟩ :=
  (color_effect_pure_and_endpoints ⟨10, 20, 30⟩ 0).2.1 (by decide) (by decide) (by decide)

/-- C9: a clip whose dimensions already equal the target's is returned
itself (identity preserved, no resample node is created); a clip whose
dimensions differ is resized to exactly the target width and height. -/
theorem resize_clip_if_needed_spec (clip : Clip) (target_format : TargetFormat) :
    (clip.width = target_format.width ∧ clip.height = target_format.height →
      resize_clip_if_needed clip target_format = clip) ∧
    (¬(clip.width = target_format.width ∧ clip.height = target_format.height) →
      resize_clip_if_needed clip target_format =
        Clip.resized clip target_format.width target_format.height ∧
      (resize_clip_if_needed clip target_format).width = target_format.width ∧
      (resize_clip_if_needed clip target_format).height = target_format.height) := by
  constructor
  · intro h
    rw [resize_clip_if_needed, if_neg]
    intro hc
    exact hc.elim (fun hx => hx h.1) (fun hx => hx h.2)
  · intro h
    have hc : clip.width ≠ target_format.width ∨ clip.height ≠ target_format.height :=
      not_and_or.mp h
    rw [resize_clip_if_needed, if_pos hc]
    exact ⟨rfl, rfl, rfl⟩

/-- Witness for `resize_clip_if_needed_spec`: a 1080×1920 source clip fed a
1080×1920 target comes back as the same clip, and a 1920×1080 source clip is
resized to 1080×1920. -/
theorem resize_clip_if_needed_spec_witness :
    resize_clip_if_needed (Clip.source 0 1080 1920 10)
        ⟨1080, 1920, FormatType.vertical_social, false⟩ =
      Clip.source 0 1080 1920 10 ∧
    resize_clip_if_needed (Clip.source 1 1920 1080 10)
        ⟨1080, 1920, FormatType.vertical_social, false⟩ =
      Clip.resized (Clip.source 1 1920 1080 10) 1080 1920 :=
  ⟨(resize_clip_if_needed_spec (Clip.source 0 1080 1920 10)
      ⟨1080, 1920, FormatType.vertical_social, false⟩).1 (by decide),
   ((resize_clip_if_needed_spec (Clip.source 1 1920 1080 10)
      ⟨1080, 1920, FormatType.vertical_social, false⟩).2 (by decide)).1⟩

/-- C5: for every list of clips, the compiled (pre-audio-mix) concatenation
preserves each clip's duration in caller-supplied order, has total duration
exactly the sum of the input durations — independent of the resolution
target and of whether the moody effect is applied — and places each clip at
the running sum of its predecessors' durations (no gaps). -/
theorem compile_clips_duration_additive (clips : List Clip)
    (target_format : TargetFormat) (apply_moody : Bool) (moody_intensity : ℚ) :
    ((compile_clips clips target_format apply_moody moody_intensity).parts.map Clip.duration =
      clips.map Clip.duration) ∧
    (compile_clips clips target_format apply_moody moody_intensity).duration =
      (clips.map Clip.duration).sum ∧
    (compile_clips clips target_format apply_moody moody_intensity).starts =
      List.scanl (fun acc d => acc + d) 0 (clips.map Clip.duration) := by
  have hdur : ∀ c : Clip,
      (process_clip target_format apply_moody moody_intensity c).duration = c.duration := by
    intro c
    simp only [process_clip, apply_dark_moody_effect, resize_clip_if_needed]
    split_ifs <;> rfl
  have hmap :
      (compile_clips clips target_format apply_moody moody_intensity).parts.map Clip.duration =
        clips.map Clip.duration := by
    simp only [compile_clips, List.map_map]
    exact List.map_congr_left (fun c _ => hdur c)
  exact ⟨hmap, by rw [CompiledVideo.duration, hmap], by rw [CompiledVideo.starts, hmap]⟩

/-- C3: when the background track (5 s) is shorter than the compiled video
(12 s), the looping branch of `create_seamless_video_compilation` executes
`concatenate_audioclips(...)`, a name that line 4 of
`motivational_video_editor.py` never imports — the call raises `NameError`
instead of looping and trimming the track to 12 s. -/
theorem add_background_music_name_error :
    add_background_music 5 12 =
      Except.error "NameError: name concatenate_audioclips is not defined" := by
  norm_num [add_background_music, moviepy_imports]
  rw [if_neg (by decide)]

/-- Auxiliary: a file created by the video-download loop was either recorded
in `downloaded_videos` (a successful download) or is the partial file of a
`failDirty` download. -/
theorem download_videos_created_cases (o : Oracle) (f : FileId) (l : List ℕ) :
    f ∈ (download_videos o l).created →
      f ∈ (download_videos o l).downloaded ∨
        ∃ i, f = FileId.videoTemp i ∧ o.videoDl i = DlOutcome.failDirty := by
  induction l with
  | nil =>
    intro hf
    simp [download_videos] at hf
  | cons i rest ih =>
    intro hf
    rw [download_videos] at hf
    cases hdl : o.videoDl i with
    | success =>
      rw [hdl] at hf
      rcases List.mem_cons.mp hf with h | h
      · left
        rw [download_videos, hdl]
        exact List.mem_cons.mpr (Or.inl h)
      · rcases ih h with hd | hw
        · left
          rw [download_videos, hdl]
          exact List.mem_cons.mpr (Or.inr hd)
        · right
          exact hw
    | failClean =>
      rw [hdl] at hf
      simp at hf
    | failDirty =>
      rw [hdl] at hf
      simp at hf
      exact Or.inr ⟨i, hf, hdl⟩

/-- Auxiliary: a file created by the audio download was either recorded in
`downloaded_audio` or is the partial file of a `failDirty` download. -/
theorem download_audio_created_cases (o : Oracle) (b : Bool) (f : FileId) :
    f ∈ (download_audio o b).created →
      f ∈ (download_audio o b).downloaded ∨
        (f = FileId.audioTemp ∧ o.audioDl = DlOutcome.failDirty) := by
  intro hf
  cases b with
  | false => simp [download_audio] at hf
  | true =>
    cases hdl : o.audioDl with
    | success =>
      left
      simpa [download_audio, hdl] using hf
    | failClean =>
      rw [download_audio] at hf
      simp [hdl] at hf
    | failDirty =>
      right
      rw [download_audio] at hf
      simp [hdl] at hf
      exact ⟨hf, rfl⟩

/-- The oracle that makes the very first video download fail after its
temporary file has been written (for example the undersized-download check
of `download_media_from_url`). -/
def dirtyFetchOracle : Oracle :=
  ⟨fun _ => DlOutcome.failDirty, DlOutcome.success, fun _ => true, true⟩

/-- C4 counterexample: a fetch-stage failure with no caller-supplied output
path leaves temporary files on disk after the call returns — the output
file created up front on line 322 (never deleted by the `finally` block)
and the partial download of the failed fetch (never recorded in
`downloaded_videos`, hence never deleted either). -/
theorem run_compilation_leaves_files :
    (run_compilation 1 false false dirtyFetchOracle).2 =
      [FileId.outputTemp, FileId.videoTemp 0] ∧
    (run_compilation 1 false false dirtyFetchOracle).2 ≠ [] := by
  decide

/-- C4 (amended): on every exit path — success or any injected failure at
the fetch, load or export stage — every successfully downloaded temporary
asset (the paths recorded in `downloaded_videos` and `downloaded_audio`) is
absent from disk after the call returns; the only files that can remain are
the internally created output file (when no output path was supplied) and
partial files left by a download attempt that failed after writing. -/
theorem run_compilation_cleanup (n : ℕ) (hasAudio outputProvided : Bool)
    (o : Oracle) (f : FileId)
    (hf : f ∈ (run_compilation n hasAudio outputProvided o).2) :
    (f = FileId.outputTemp ∧ outputProvided = false) ∨
    (∃ i, f = FileId.videoTemp i ∧ o.videoDl i = DlOutcome.failDirty) ∨
    (f = FileId.audioTemp ∧ o.audioDl = DlOutcome.failDirty) := by
  simp only [run_compilation, List.mem_filter, List.mem_append, decide_eq_true_eq] at hf
  obtain ⟨hmem, hnotv, hnota⟩ := hf
  rcases hmem with (hinit | hvid) | haud
  · cases houtput : outputProvided with
    | false =>
      rw [houtput] at hinit
      simp at hinit
      exact Or.inl ⟨hinit, rfl⟩
    | true =>
      rw [houtput] at hinit
      simp at hinit
  · rcases download_videos_created_cases o f (List.range n) hvid with hd | hw
    · exact absurd hd hnotv
    · exact Or.inr (Or.inl hw)
  · by_cases hok : (download_videos o (List.range n)).ok = true
    · rw [if_pos hok] at haud hnota
      rcases download_audio_created_cases o hasAudio f haud with hd | hw
      · exact absurd hd hnota
      · exact Or.inr (Or.inr hw)
    · rw [if_neg hok] at haud
      simp at haud

/-- Witness for `run_compilation_cleanup`: the output temp file surviving
the failed request of `dirtyFetchOracle` is accounted for by the first
disjunct. -/
theorem run_compilation_cleanup_witness :
    (FileId.outputTemp = FileId.outputTemp ∧ false = false) ∨
    (∃ i, FileId.outputTemp = FileId.videoTemp i ∧
      dirtyFetchOracle.videoDl i = DlOutcome.failDirty) ∨
    (FileId.outputTemp = FileId.audioTemp ∧
      dirtyFetchOracle.audioDl = DlOutcome.failDirty) :=
  run_compilation_cleanup 1 false false dirtyFetchOracle FileId.outputTemp (by decide)

/-- C7: a request with any volume or effect-intensity parameter outside
`[0, 1]`, or with fewer than 1 or more than 10 video sources, is rejected
with an HTTP 400 validation error; the pipeline (and hence any download) is
never entered. -/
theorem out_of_range_request_rejected (r : VideoRequest)
    (h : ¬(0 ≤ r.video_audio_volume ∧ r.video_audio_volume ≤ 1) ∨
      ¬(0 ≤ r.background_music_volume ∧ r.background_music_volume ≤ 1) ∨
      ¬(0 ≤ r.moody_intensity ∧ r.moody_intensity ≤ 1) ∨
      r.video_urls.length < 1 ∨ 10 < r.video_urls.length) :
    ∃ e, generate_seamless_videos r = HandlerResult.rejected 400 e := by
  rw [generate_seamless_videos]
  cases hv : validate_video_request r with
  | some e => exact ⟨e, rfl⟩
  | none =>
    exfalso
    rw [validate_video_request] at hv
    by_cases h1 : r.video_urls.length < 1
    · rw [if_pos h1] at hv
      exact Option.noConfusion hv
    rw [if_neg h1] at hv
    by_cases h2 : r.video_urls.length > 10
    · rw [if_pos h2] at hv
      exact Option.noConfusion hv
    rw [if_neg h2] at hv
    cases hm : first_malformed_index r.video_urls with
    | some i =>
      rw [hm] at hv
      exact Option.noConfusion hv
    | none =>
      rw [hm] at hv
      by_cases h3 : r.format_mode = "vertical" ∨ r.format_mode = "horizontal" ∨
          r.format_mode = "auto"
      case neg =>
        rw [if_pos h3] at hv
        exact Option.noConfusion hv
      case pos =>
        rw [if_neg (not_not_intro h3)] at hv
        by_cases h4 : 0 ≤ r.video_audio_volume ∧ r.video_audio_volume ≤ 1
        case neg =>
          rw [if_pos h4] at hv
          exact Option.noConfusion hv
        case pos =>
          rw [if_neg (not_not_intro h4)] at hv
          by_cases h5 : 0 ≤ r.background_music_volume ∧ r.background_music_volume ≤ 1
          case neg =>
            rw [if_pos h5] at hv
            exact Option.noConfusion hv
          case pos =>
            rw [if_neg (not_not_intro h5)] at hv
            by_cases h6 : 0 ≤ r.moody_intensity ∧ r.moody_intensity ≤ 1
            case neg =>
              rw [if_pos h6] at hv
              exact Option.noConfusion hv
            case pos =>
              rcases h with hx | hx | hx | hx | hx
              · exact hx h4
              · exact hx h5
              · exact hx h6
              · exact h1 hx
              · exact h2 hx

/-- A request with no video sources at all. -/
def emptyVideoRequest : VideoRequest :=
  ⟨[], none, "vertical", false, 0.7, 0.8, 0.3⟩

/-- Witness for `out_of_range_request_rejected`: the request with zero video
sources is rejected with a 400 validation error. -/
theorem out_of_range_request_rejected_witness :
    ∃ e, generate_seamless_videos emptyVideoRequest = HandlerResult.rejected 400 e :=
  out_of_range_request_rejected emptyVideoRequest
    (Or.inr (Or.inr (Or.inr (Or.inl (by decide)))))

/-- A request with eleven copies of a URL that contains a comma and two
occurrences of `http`. -/
def oversizedMalformedRequest : VideoRequest :=
  ⟨List.replicate 11 "http://a.example/v.mp4,http://b.example/v.mp4",
    none, "auto", false, 0.7, 0.8, 0.3⟩

/-- C10 counterexample: a request whose URLs all trip the malformed-URL test
but which also has more than 10 sources is rejected by the earlier
source-count check (`main.py`, line 378), with a 400 whose detail does not
identify any URL index — the malformed-URL branch is never reached. -/
theorem malformed_url_not_always_indexed :
    generate_seamless_videos oversizedMalformedRequest =
      HandlerResult.rejected 400 ValidationError.tooManyVideos ∧
    generate_seamless_videos oversizedMalformedRequest ≠
      HandlerResult.rejected 400 (ValidationError.malformedUrl 1) ∧
    is_malformed_url "http://a.example/v.mp4,http://b.example/v.mp4" = true := by
  decide

/-- C10 (amended): for every request that passes the source-count bounds
(1 to 10 video URLs), if some URL contains a comma and more than one
occurrence of `http`, the request is rejected with HTTP 400 identifying the
first such URL's 1-based index, before any download occurs; a request that
also violates the count bounds is rejected for the count instead (still 400,
still before any download). -/
theorem malformed_url_rejected_with_index (r : VideoRequest) (i : ℕ)
    (h1 : 1 ≤ r.video_urls.length) (h2 : r.video_urls.length ≤ 10)
    (h3 : first_malformed_index r.video_urls = some i) :
    generate_seamless_videos r =
      HandlerResult.rejected 400 (ValidationError.malformedUrl (i + 1)) := by
  have hval : validate_video_request r = some (ValidationError.malformedUrl (i + 1)) := by
    rw [validate_video_request, if_neg (by omega), if_neg (by omega), h3]
  rw [generate_seamless_videos, hval]

/-- A two-URL request whose second URL contains a comma-joined pair of
URLs. -/
def twoUrlRequest : VideoRequest :=
  ⟨["http://a.example/v.mp4", "http://b.example/v.mp4,http://c.example/v.mp4"],
    none, "auto", false, 0.7, 0.8, 0.3⟩

/-- Witness for `malformed_url_rejected_with_index`: the second URL of
`twoUrlRequest` is malformed and the request is rejected with index 2. -/
theorem malformed_url_rejected_with_index_witness :
    generate_seamless_videos twoUrlRequest =
      HandlerResult.rejected 400 (ValidationError.malformedUrl 2) :=
  malformed_url_rejected_with_index twoUrlRequest 1 (by decide) (by decide) (by decide)

/-- Witness for `analyze_video_format_bands`: at the concrete positive size
1080×1920 the classification is vertical-social. -/
theorem analyze_video_format_bands_witness :
    (analyze_video_format 1080 1920).format_type = FormatType.vertical_social :=
  (analyze_video_format_bands 1080 1920 (by decide) (by decide)).2.1
